import Mathlib

/-!
Shallow embedding of the Olist e-commerce category-analytics pipeline
(`category_mapper.py`, `data_loader.py`, `analyzer.py`) and proofs about it.

Modelling conventions:
* A pandas DataFrame is a `List` of records (one structure per table schema).
* A nullable cell (pandas `NaN`/`NaT`) is an `Option`; a computed float that
  would be non-finite (`NaN`/`inf`, e.g. division by zero) is `none`.
* Prices, timestamps and derived numeric columns are `ℚ`.
* `pd.merge` is row-pairing by key (`how='left'` keeps an unmatched left row
  with a `none` cell; `how='inner'` drops it).
* `groupby` follows pandas defaults: null keys are dropped (`dropna=True`)
  and group keys are emitted in sorted order (`sort=True`).
-/

/-! ## Generic list helpers (pandas primitives) -/

/-- Stable insertion step for `sortedBy`: place `x` before the first element
it strictly precedes according to `before`. -/
def insertSorted (before : α → α → Bool) (x : α) : List α → List α
  | [] => [x]
  | y :: ys => if before x y then x :: y :: ys else y :: insertSorted before x ys

/-- Insertion sort with an explicit ordering predicate. -/
def sortedBy (before : α → α → Bool) : List α → List α
  | [] => []
  | x :: xs => insertSorted before x (sortedBy before xs)

/-- First-occurrence deduplication (pandas `drop_duplicates`, `keep='first'`),
with `seen` accumulating the rows already kept. -/
def dedupFirst [DecidableEq α] (seen : List α) : List α → List α
  | [] => []
  | x :: xs =>
    if x ∈ seen then dedupFirst seen xs
    else x :: dedupFirst (x :: seen) xs

/-- Mean of a list of rationals; `none` models pandas' `NaN` mean of an
empty series. -/
def meanQ (xs : List ℚ) : Option ℚ :=
  if xs.length = 0 then none else some (xs.sum / xs.length)

/-- Sample variance (`ddof=1`); `none` when fewer than two values, matching
pandas `std` returning `NaN` there.  The source's `std` column is the square
root of this quantity; the set of rows it draws on is identical. -/
def sampleVarQ (xs : List ℚ) : Option ℚ :=
  if xs.length ≤ 1 then none
  else some ((xs.map (fun x => (x - xs.sum / xs.length) ^ 2)).sum / (xs.length - 1 : ℕ))

/-- Minimum of a list of rationals; `none` for an empty series. -/
def minQ : List ℚ → Option ℚ
  | [] => none
  | x :: xs =>
    match minQ xs with
    | none => some x
    | some m => some (min x m)

/-- Maximum of a list of rationals; `none` for an empty series. -/
def maxQ : List ℚ → Option ℚ
  | [] => none
  | x :: xs =>
    match maxQ xs with
    | none => some x
    | some m => some (max x m)

/-- Maximum of a list of naturals; `none` for an empty series
(pandas `Series.max`). -/
def maxNat? : List ℕ → Option ℕ
  | [] => none
  | x :: xs =>
    match maxNat? xs with
    | none => some x
    | some m => some (max x m)

/-! ## `category_mapper.py` — CategoryMapper -/

/-- One row of the category-translation table
(`product_category_name_translation.csv`).  Both cells may be `NaN`. -/
structure CategoryRow where
  product_category_name : Option String
  product_category_name_english : Option String
deriving DecidableEq, Repr

/-- One row of the persisted mapping table built by
`CategoryMapper.create_initial_mapping`. -/
structure MappingRow where
  original_portuguese_category : Option String
  english_translation : Option String
  normalized_category : String
deriving DecidableEq, Repr

/-- Python `str.title()` over the character list: a cased (alphabetic)
character is uppercased when the previous character was uncased and
lowercased otherwise. -/
def pyTitleAux (prevCased : Bool) : List Char → List Char
  | [] => []
  | c :: cs =>
    if c.isAlpha then
      (if prevCased then c.toLower else c.toUpper) :: pyTitleAux true cs
    else
      c :: pyTitleAux false cs

/-- Python `str.title()`. -/
def pyTitle (s : String) : String := ⟨pyTitleAux false s.data⟩

/-- Python `str.replace(' ', '_')`. -/
def replaceSpaces (s : String) : String :=
  ⟨s.data.map (fun c => if c = ' ' then '_' else c)⟩

/-- The lambda in `create_initial_mapping`:
`str(x).title().replace(' ', '_') if pd.notna(x) else 'Unknown'`. -/
def normalizeLabel (x : Option String) : String :=
  match x with
  | some s => replaceSpaces (pyTitle s)
  | none => "Unknown"

/-- `CategoryMapper.create_initial_mapping`: derive the three mapping columns
from the translation table, then `drop_duplicates()` (full-row deduplication,
first occurrence kept). -/
def create_initial_mapping (categories : List CategoryRow) : List MappingRow :=
  dedupFirst []
    (categories.map fun r =>
      { original_portuguese_category := r.product_category_name
        english_translation := r.product_category_name_english
        normalized_category := normalizeLabel r.product_category_name_english })

/-- The spec's derivation rule for the canonical label (§4.1), stated from
the spec's words rather than the code, for refinement comparison: title-case
the translated label and replace each space with an underscore; a null or
absent translated label gets the sentinel `"Unknown"`. -/
def specCanonicalLabel (translated : Option String) : String :=
  match translated with
  | some t => replaceSpaces (pyTitle t)
  | none => "Unknown"

/-- The serialized form of the mapping file: one `(original, english,
normalized)` cell triple per row, as written column-by-column to the sheet. -/
def save_mapping (m : List MappingRow) : List (Option String × Option String × String) :=
  m.map fun r =>
    (r.original_portuguese_category, r.english_translation, r.normalized_category)

/-- `CategoryMapper.load_mapping` on an existing file: read the three columns
back into mapping rows. -/
def load_mapping (t : List (Option String × Option String × String)) : List MappingRow :=
  t.map fun c => ⟨c.1, c.2.1, c.2.2⟩

/-- pandas cell equality as used by
`mapping_df['original_portuguese_category'] == portuguese_category`:
a `NaN` on either side compares unequal to everything (including `NaN`). -/
def cellEq (a b : Option String) : Bool :=
  match a, b with
  | some x, some y => x == y
  | _, _ => false

/-- `CategoryMapper.get_normalized_category`: filter the mapping by raw label;
the first matching row's `normalized_category` if any match, else the
sentinel `"Unknown"`. -/
def get_normalized_category (mapping : List MappingRow) (portuguese_category : Option String) : String :=
  match mapping.find? (fun row => cellEq row.original_portuguese_category portuguese_category) with
  | some row => row.normalized_category
  | none => "Unknown"

/-! ## `data_loader.py` — product preparation -/

/-- One row of the raw products table (`olist_products_dataset.csv`);
only the columns the pipeline reads.  `product_category_name` may be `NaN`. -/
structure RawProductRow where
  product_id : String
  product_category_name : Option String
deriving DecidableEq, Repr

/-- A product row after `OlistDataLoader.prepare_product_categories`; only the
two columns the analyzer selects (`product_id`, `normalized_category`).
The loader-side merge with the translation table adds an English column the
analyzer never reads, so it is not modelled. -/
structure ProductRow where
  product_id : String
  normalized_category : String
deriving DecidableEq, Repr

/-- `OlistDataLoader.prepare_product_categories`: attach
`normalized_category := get_normalized_category(mapping, raw label)` to every
product row. -/
def prepare_product_categories (mapping : List MappingRow) (products : List RawProductRow) :
    List ProductRow :=
  products.map fun p =>
    { product_id := p.product_id
      normalized_category := get_normalized_category mapping p.product_category_name }

/-! ## `analyzer.py` — OlistAnalyzer data model -/

/-- One row of the order-items table (`olist_order_items_dataset.csv`);
only the columns the analyzer reads.  All of them are non-null in the data
model (`order_item_id` is the per-order line number). -/
structure ItemRow where
  order_item_id : ℕ
  order_id : String
  product_id : String
  price : ℚ
deriving DecidableEq, Repr

/-- A row of `sales_data` in `calculate_category_metrics`: an order item after
the left merge with product attributes; `category = none` models the `NaN`
produced for an item whose `product_id` has no product row. -/
structure SalesRow where
  order_item_id : ℕ
  order_id : String
  product_id : String
  price : ℚ
  category : Option String
deriving DecidableEq, Repr

/-- `items_df.merge(products_df[['product_id', 'normalized_category']],
on='product_id', how='left')`: each item is paired with every matching
product row; an unmatched item is kept once with a `NaN` category. -/
def leftMergeCategory (items : List ItemRow) (products : List ProductRow) : List SalesRow :=
  items.flatMap fun it =>
    match products.filter (fun p => p.product_id == it.product_id) with
    | [] => [{ order_item_id := it.order_item_id, order_id := it.order_id,
               product_id := it.product_id, price := it.price, category := none }]
    | ps => ps.map fun p =>
        { order_item_id := it.order_item_id, order_id := it.order_id,
          product_id := it.product_id, price := it.price,
          category := some p.normalized_category }

/-- pandas `Series.rank(ascending=False)` with the default `method='average'`:
the rank of value `v` is the count of strictly greater values plus the average
of the positions the ties occupy. -/
def avgRankDesc (vals : List ℚ) (v : ℚ) : ℚ :=
  ((vals.filter fun w => decide (v < w)).length : ℚ) +
    (((vals.filter fun w => w == v).length : ℚ) + 1) / 2

/-- One row of the `CategoryMetrics` table produced by
`calculate_category_metrics`.  `revenue_share = none` models the non-finite
float (`NaN`/`inf`) that the division produces when the total revenue is
zero. -/
structure MetricsRow where
  normalized_category : String
  total_sales : ℕ
  total_revenue : ℚ
  avg_ticket : ℚ
  product_diversity : ℕ
  revenue_share : Option ℚ
  revenue_rank : ℚ
deriving DecidableEq, Repr

/-- The rows of `sales_data` falling in the group of category `c` under
`groupby('normalized_category')`. -/
def categoryGroup (sales : List SalesRow) (c : String) : List SalesRow :=
  sales.filter (fun r => r.category == some c)

/-- The group keys of `groupby('normalized_category')`: the non-null
categories (pandas drops the `NaN` key), deduplicated and emitted in sorted
order. -/
def categoryKeys (sales : List SalesRow) : List String :=
  sortedBy (fun a b => decide (a < b)) (dedupFirst [] (sales.filterMap (·.category)))

/-- The aggregated row for one category group: `('order_item_id', 'count')`,
`('price', 'sum')`, `('price', 'mean')`, `('product_id', 'nunique')`
(all inputs non-null inside a group).  `revenue_share`/`revenue_rank` are
placeholders until those columns are added. -/
def metricsBaseRow (sales : List SalesRow) (c : String) : MetricsRow :=
  let g := categoryGroup sales c
  { normalized_category := c
    total_sales := g.length
    total_revenue := (g.map (·.price)).sum
    avg_ticket := (g.map (·.price)).sum / g.length
    product_diversity := (dedupFirst [] (g.map (·.product_id))).length
    revenue_share := none
    revenue_rank := 0 }

/-- The `metrics` frame right after the `groupby(...).agg(...)` step. -/
def metricsBase (sales : List SalesRow) : List MetricsRow :=
  (categoryKeys sales).map (metricsBaseRow sales)

/-- Lines 56–60: fill in the `revenue_share` and `revenue_rank` columns of an
aggregated row, from the whole `metrics` frame's revenue column. -/
def metricsDerivedRow (sales : List SalesRow) (r : MetricsRow) : MetricsRow :=
  let totalRev := ((metricsBase sales).map (·.total_revenue)).sum
  { r with
    revenue_share := if totalRev = 0 then none else some (r.total_revenue / totalRev * 100)
    revenue_rank := avgRankDesc ((metricsBase sales).map (·.total_revenue)) r.total_revenue }

/-- Lines 41–62 of `calculate_category_metrics` applied to the merged
`sales_data` frame: aggregate per category, add `revenue_share` and
`revenue_rank`, and sort by `total_revenue` descending. -/
def metricsFromSales (sales : List SalesRow) : List MetricsRow :=
  sortedBy (fun a b => decide (b.total_revenue ≤ a.total_revenue))
    ((metricsBase sales).map (metricsDerivedRow sales))

/-- `OlistAnalyzer.calculate_category_metrics`: left-merge items with product
categories, then group, aggregate, derive and sort. -/
def calculate_category_metrics (items : List ItemRow) (products : List ProductRow) :
    List MetricsRow :=
  metricsFromSales (leftMergeCategory items products)

/-- One row of the ticket-analysis view (`analyze_average_ticket`).
`relative_to_mean = none` models a non-finite float. -/
structure TicketRow where
  normalized_category : String
  avg_ticket : ℚ
  total_sales : ℕ
  ticket_rank : ℚ
  relative_to_mean : Option ℚ
deriving DecidableEq, Repr

/-- One ticket-analysis row derived from a category-metrics row: the column
selection plus `ticket_rank` (the same `rank(ascending=False)` call, over the
`avg_ticket` column of the whole frame) and `relative_to_mean`. -/
def ticketRowOf (metrics : List MetricsRow) (r : MetricsRow) : TicketRow :=
  let vals := metrics.map (·.avg_ticket)
  { normalized_category := r.normalized_category
    avg_ticket := r.avg_ticket
    total_sales := r.total_sales
    ticket_rank := avgRankDesc vals r.avg_ticket
    relative_to_mean :=
      match meanQ vals with
      | none => none
      | some m => if m = 0 then none else some (r.avg_ticket / m) }

/-- `OlistAnalyzer.analyze_average_ticket`: select three columns of the
category metrics, add `ticket_rank` and `relative_to_mean`, and sort by
`avg_ticket` descending. -/
def analyze_average_ticket (items : List ItemRow) (products : List ProductRow) :
    List TicketRow :=
  let metrics := calculate_category_metrics items products
  sortedBy (fun a b => decide (b.avg_ticket ≤ a.avg_ticket))
    (metrics.map (ticketRowOf metrics))

/-- One row of the popularity view (`analyze_category_popularity`).
`none` in a numeric column models a non-finite float (e.g. the `NaN`
`revenue_share` propagating into the score). -/
structure PopularityRow where
  normalized_category : String
  total_sales : ℕ
  revenue_share : Option ℚ
  product_diversity : ℕ
  sales_share : Option ℚ
  popularity_score : Option ℚ
deriving DecidableEq, Repr

/-- `OlistAnalyzer.analyze_category_popularity`: select columns of the
category metrics, add `sales_share` and the weighted `popularity_score`,
and sort by score descending (non-finite values last, as pandas places
`NaN`). -/
def analyze_category_popularity (items : List ItemRow) (products : List ProductRow) :
    List PopularityRow :=
  let metrics := calculate_category_metrics items products
  let totalSales := (metrics.map (·.total_sales)).sum
  let maxDiv := maxNat? (metrics.map (·.product_diversity))
  let rows : List PopularityRow := metrics.map fun r =>
    let sales_share : Option ℚ :=
      if totalSales = 0 then none else some ((r.total_sales : ℚ) / totalSales)
    { normalized_category := r.normalized_category
      total_sales := r.total_sales
      revenue_share := r.revenue_share
      product_diversity := r.product_diversity
      sales_share := sales_share
      popularity_score :=
        match sales_share, r.revenue_share, maxDiv with
        | some ss, some rs, some md =>
          if md = 0 then none
          else some (0.4 * ss + 0.4 * (rs / 100) + 0.2 * ((r.product_diversity : ℚ) / md))
        | _, _, _ => none }
  sortedBy
    (fun a b =>
      match a.popularity_score, b.popularity_score with
      | some x, some y => decide (y ≤ x)
      | some _, none => true
      | none, some _ => false
      | none, none => true)
    rows

/-! ## `analyzer.py` — delivery and monthly views -/

/-- A parsed pandas datetime: a point on a linear time scale (`seconds`,
used by timestamp subtraction / `total_seconds()`) that also carries its
calendar `year`/`month` (used by `to_period('M')`). -/
structure Timestamp where
  seconds : ℚ
  year : ℕ
  month : ℕ
deriving DecidableEq, Repr

/-- One row of the orders table (`olist_orders_dataset.csv`); only the
columns the analyzer reads.  A `none` timestamp is pandas `NaT`. -/
structure OrderRow where
  order_id : String
  order_purchase_timestamp : Option Timestamp
  order_delivered_customer_date : Option Timestamp
deriving DecidableEq, Repr

/-- The `delivery_time` column: `(delivered - purchase).total_seconds()/86400`;
`NaT` on either side propagates to `NaN` (`none`). -/
def deliveryTime (o : OrderRow) : Option ℚ :=
  match o.order_delivered_customer_date, o.order_purchase_timestamp with
  | some d, some p => some ((d.seconds - p.seconds) / 86400)
  | _, _ => none

/-- `items_df.merge(products_df[['product_id', 'normalized_category']],
on='product_id')` — the default inner merge used by the monthly and delivery
views (an item with no product row is dropped here). -/
def itemsInnerProducts (items : List ItemRow) (products : List ProductRow) :
    List (ItemRow × String) :=
  items.flatMap fun it =>
    (products.filter (fun p => p.product_id == it.product_id)).map fun p =>
      (it, p.normalized_category)

/-- A row of the merged frame in `analyze_delivery_metrics`, keeping the two
columns the aggregation reads (`order_id` is non-null, so the `'count'`
aggregate is the plain row count of the group). -/
structure DeliveryJoinedRow where
  normalized_category : String
  delivery_time : Option ℚ
deriving DecidableEq, Repr

/-- The merged frame of `analyze_delivery_metrics`: orders inner-joined by
`order_id` with the item×product merge; each surviving row carries its
order's `delivery_time`. -/
def deliveryJoined (orders : List OrderRow) (items : List ItemRow)
    (products : List ProductRow) : List DeliveryJoinedRow :=
  orders.flatMap fun o =>
    ((itemsInnerProducts items products).filter (fun s => s.1.order_id == o.order_id)).map
      fun s => { normalized_category := s.2, delivery_time := deliveryTime o }

/-- One row of the delivery-metrics view.  The source's `std` column is the
square root of `delivery_time_var`; both draw on the same rows.
`order_count` is the `('order_id', 'count')` aggregate. -/
structure DeliveryMetricsRow where
  normalized_category : String
  delivery_time_mean : Option ℚ
  delivery_time_var : Option ℚ
  delivery_time_min : Option ℚ
  delivery_time_max : Option ℚ
  order_count : ℕ
deriving DecidableEq, Repr

/-- The aggregated delivery row of one category group of the merged frame
`j`: `delivery_time` mean/std/min/max (pandas aggregations skip `NaN`) and
the `('order_id', 'count')` aggregate (`order_id` is never null, so it counts
every row of the group). -/
def deliveryMetricsRowOf (j : List DeliveryJoinedRow) (c : String) : DeliveryMetricsRow :=
  let g := j.filter (fun r => r.normalized_category == c)
  let xs := g.filterMap (·.delivery_time)
  { normalized_category := c
    delivery_time_mean := meanQ xs
    delivery_time_var := sampleVarQ xs
    delivery_time_min := minQ xs
    delivery_time_max := maxQ xs
    order_count := g.length }

/-- The computation of `OlistAnalyzer.analyze_delivery_metrics` as a function
of the orders table it fetches from `self.datasets['orders']`: group the
merged frame by category and aggregate each group. -/
def analyze_delivery_metrics_core (orders : List OrderRow) (items : List ItemRow)
    (products : List ProductRow) : List DeliveryMetricsRow :=
  let j := deliveryJoined orders items products
  (sortedBy (fun a b => decide (a < b)) (dedupFirst [] (j.map (·.normalized_category)))).map
    (deliveryMetricsRowOf j)

/-- One row of the monthly-sales view: group key `(year, month)` of the
purchase timestamp plus category, with the `('order_id', 'count')` and
`('price', 'sum')` aggregates. -/
structure MonthlyRow where
  month_year : ℕ × ℕ
  normalized_category : String
  order_count : ℕ
  total_price : ℚ
deriving DecidableEq, Repr

/-- Ascending order of the composite `(month_year, category)` group key. -/
def monthKeyLt (a b : (ℕ × ℕ) × String) : Bool :=
  decide (a.1.1 < b.1.1) ||
    (a.1.1 == b.1.1 &&
      (decide (a.1.2 < b.1.2) || (a.1.2 == b.1.2 && decide (a.2 < b.2))))

/-- The computation of `OlistAnalyzer.analyze_sales_by_month` as a function of
the orders table it fetches from `self.datasets['orders']`: inner-merge items
with products and orders, truncate the purchase timestamp to `(year, month)`,
and group by `(month_year, category)` (a row whose timestamp is `NaT` has a
null group key and is dropped). -/
def analyze_sales_by_month_core (items : List ItemRow) (products : List ProductRow)
    (orders : List OrderRow) : List MonthlyRow :=
  let sales := (itemsInnerProducts items products).flatMap fun s =>
    (orders.filter (fun o => o.order_id == s.1.order_id)).map fun o =>
      (s.1, s.2, o.order_purchase_timestamp.map fun t => (t.year, t.month))
  let keys := sortedBy monthKeyLt
    (dedupFirst [] (sales.filterMap fun s => s.2.2.map fun my => (my, s.2.1)))
  keys.map fun k =>
    let g := sales.filter fun s => s.2.2 == some k.1 && s.2.1 == k.2
    { month_year := k.1
      normalized_category := k.2
      order_count := g.length
      total_price := (g.map (fun s => s.1.price)).sum }

/-! ## `analyzer.py` — the OlistAnalyzer object and its attribute access -/

/-- A Python exception surfaced by the analyzer. -/
inductive PyError where
  | attributeError (name : String)
  | keyError (key : String)
  | typeError
deriving DecidableEq, Repr

/-- A value stored in an analyzer instance attribute.  `datasetsDict` is the
shape a `datasets` attribute would have (the loader's name→table dict); the
analyzer constructor never stores one. -/
inductive AttrVal where
  | productsDf (rows : List ProductRow)
  | itemsDf (rows : List ItemRow)
  | outputDir (dir : String)
  | datasetsDict (d : List (String × List OrderRow))

/-- An `OlistAnalyzer` instance: its attribute dictionary (`__dict__`). -/
structure OlistAnalyzer where
  attrs : List (String × AttrVal)

/-- `OlistAnalyzer.__init__`: stores exactly `products_df`, `items_df` and
`output_dir` (the directory creation is external I/O and not modelled). -/
def olistAnalyzerInit (products_df : List ProductRow) (items_df : List ItemRow)
    (output_dir : String) : OlistAnalyzer :=
  { attrs := [("products_df", AttrVal.productsDf products_df),
              ("items_df", AttrVal.itemsDf items_df),
              ("output_dir", AttrVal.outputDir output_dir)] }

/-- Python attribute access `self.<name>`: `AttributeError` when the instance
dictionary has no such entry. -/
def OlistAnalyzer.getattr (a : OlistAnalyzer) (name : String) : Except PyError AttrVal :=
  match a.attrs.find? (fun kv => kv.1 == name) with
  | some kv => Except.ok kv.2
  | none => Except.error (PyError.attributeError name)

/-- `self.products_df` as a products table. -/
def OlistAnalyzer.getProductsDf (a : OlistAnalyzer) : Except PyError (List ProductRow) := do
  match ← a.getattr "products_df" with
  | AttrVal.productsDf l => pure l
  | _ => Except.error PyError.typeError

/-- `self.items_df` as an items table. -/
def OlistAnalyzer.getItemsDf (a : OlistAnalyzer) : Except PyError (List ItemRow) := do
  match ← a.getattr "items_df" with
  | AttrVal.itemsDf l => pure l
  | _ => Except.error PyError.typeError

/-- `self.datasets['orders']`: fetch the `datasets` attribute, then index the
dict with `'orders'`. -/
def OlistAnalyzer.getOrdersDataset (a : OlistAnalyzer) : Except PyError (List OrderRow) := do
  match ← a.getattr "datasets" with
  | AttrVal.datasetsDict d =>
    match d.find? (fun kv => kv.1 == "orders") with
    | some kv => pure kv.2
    | none => Except.error (PyError.keyError "orders")
  | _ => Except.error PyError.typeError

/-- The method `OlistAnalyzer.calculate_category_metrics` (reads `items_df`
and `products_df`, then runs the pure computation). -/
def OlistAnalyzer.calculate_category_metrics_df (a : OlistAnalyzer) :
    Except PyError (List MetricsRow) := do
  let items ← a.getItemsDf
  let products ← a.getProductsDf
  pure (calculate_category_metrics items products)

/-- The method `OlistAnalyzer.analyze_average_ticket`. -/
def OlistAnalyzer.analyze_average_ticket_df (a : OlistAnalyzer) :
    Except PyError (List TicketRow) := do
  let items ← a.getItemsDf
  let products ← a.getProductsDf
  pure (analyze_average_ticket items products)

/-- The method `OlistAnalyzer.analyze_category_popularity`. -/
def OlistAnalyzer.analyze_category_popularity_df (a : OlistAnalyzer) :
    Except PyError (List PopularityRow) := do
  let items ← a.getItemsDf
  let products ← a.getProductsDf
  pure (analyze_category_popularity items products)

/-- The method `OlistAnalyzer.analyze_sales_by_month`: its first statement
merges `self.items_df` with `self.products_df`; the second dereferences
`self.datasets`, so the orders lookup happens after the items/products
reads. -/
def OlistAnalyzer.analyze_sales_by_month (a : OlistAnalyzer) :
    Except PyError (List MonthlyRow) := do
  let items ← a.getItemsDf
  let products ← a.getProductsDf
  let orders ← a.getOrdersDataset
  pure (analyze_sales_by_month_core items products orders)

/-- The method `OlistAnalyzer.analyze_delivery_metrics`: its first statement
dereferences `self.datasets`. -/
def OlistAnalyzer.analyze_delivery_metrics (a : OlistAnalyzer) :
    Except PyError (List DeliveryMetricsRow) := do
  let orders ← a.getOrdersDataset
  let items ← a.getItemsDf
  let products ← a.getProductsDf
  pure (analyze_delivery_metrics_core orders items products)

/-- The five sheets of the detailed Excel report, in the order the method
writes them. -/
structure ReportSheets where
  category_metrics : List MetricsRow
  sales_by_month : List MonthlyRow
  avg_ticket_analysis : List TicketRow
  category_popularity : List PopularityRow
  delivery_analysis : List DeliveryMetricsRow

/-- `OlistAnalyzer.generate_detailed_excel_report`: computes the five sheets
in source order (the spreadsheet writing itself is external I/O); any
exception in a sheet computation propagates. -/
def OlistAnalyzer.generate_detailed_excel_report (a : OlistAnalyzer) :
    Except PyError ReportSheets := do
  let category_metrics ← a.calculate_category_metrics_df
  let sales_by_month ← a.analyze_sales_by_month
  let avg_ticket_analysis ← a.analyze_average_ticket_df
  let category_popularity ← a.analyze_category_popularity_df
  let delivery_analysis ← a.analyze_delivery_metrics
  pure { category_metrics, sales_by_month, avg_ticket_analysis,
         category_popularity, delivery_analysis }

/-! ## Helper lemmas about the list primitives -/

theorem mem_insertSorted {bf : α → α → Bool} {x a : α} {l : List α} :
    a ∈ insertSorted bf x l ↔ a = x ∨ a ∈ l := by
  induction l with
  | nil => simp [insertSorted]
  | cons y ys ih =>
    by_cases h : bf x y
    · simp [insertSorted, h]
    · simp [insertSorted, h, ih]
      tauto

theorem insertSorted_perm (bf : α → α → Bool) (x : α) (l : List α) :
    List.Perm (insertSorted bf x l) (x :: l) := by
  induction l with
  | nil => exact List.Perm.refl _
  | cons y ys ih =>
    by_cases h : bf x y
    · simp [insertSorted, h]
    · simp only [insertSorted, h, if_neg, Bool.false_eq_true, not_false_eq_true]
      exact (ih.cons y).trans (List.Perm.swap x y ys)

theorem sortedBy_perm (bf : α → α → Bool) (l : List α) :
    List.Perm (sortedBy bf l) l := by
  induction l with
  | nil => exact List.Perm.refl _
  | cons x xs ih => exact (insertSorted_perm bf x (sortedBy bf xs)).trans (ih.cons x)

theorem mem_sortedBy {bf : α → α → Bool} {a : α} {l : List α} :
    a ∈ sortedBy bf l ↔ a ∈ l :=
  (sortedBy_perm bf l).mem_iff

theorem mem_dedupFirst [DecidableEq α] {a : α} {seen l : List α} :
    a ∈ dedupFirst seen l ↔ a ∈ l ∧ a ∉ seen := by
  induction l generalizing seen with
  | nil => simp [dedupFirst]
  | cons x xs ih =>
    by_cases h : x ∈ seen
    · simp only [dedupFirst, h, if_pos, ih, List.mem_cons]
      constructor
      · rintro ⟨hx, hs⟩
        exact ⟨Or.inr hx, hs⟩
      · rintro ⟨hx | hx, hs⟩
        · exact absurd h (hx ▸ hs)
        · exact ⟨hx, hs⟩
    · simp only [dedupFirst, h, if_neg, not_false_eq_true, List.mem_cons, ih]
      constructor
      · rintro (rfl | ⟨hx, hs⟩)
        · exact ⟨Or.inl rfl, h⟩
        · simp only [List.mem_cons, not_or] at hs
          exact ⟨Or.inr hx, hs.2⟩
      · rintro ⟨rfl | hx, hs⟩
        · exact Or.inl rfl
        · by_cases hax : a = x
          · exact Or.inl hax
          · exact Or.inr ⟨hx, by simp [hax, hs]⟩

theorem nodup_dedupFirst [DecidableEq α] (seen l : List α) :
    (dedupFirst seen l).Nodup := by
  induction l generalizing seen with
  | nil => exact List.nodup_nil
  | cons x xs ih =>
    by_cases h : x ∈ seen
    · simpa only [dedupFirst, h, if_pos] using ih seen
    · simp only [dedupFirst, h, if_neg, not_false_eq_true]
      refine List.nodup_cons.mpr ⟨fun hmem => ?_, ih (x :: seen)⟩
      exact (mem_dedupFirst.mp hmem).2 (List.mem_cons_self x seen)

theorem filterMap_eq_filterMap_filter (f : α → Option β) (l : List α) :
    l.filterMap f = (l.filter fun x => (f x).isSome).filterMap f := by
  induction l with
  | nil => rfl
  | cons x xs ih =>
    cases h : f x with
    | none => simp [List.filterMap_cons, List.filter_cons, h, ih]
    | some b => simp [List.filterMap_cons, List.filter_cons, h, ih]

theorem length_filter_add_length_filter_not (l : List α) (p : α → Bool) :
    (l.filter p).length + (l.filter fun x => !(p x)).length = l.length := by
  induction l with
  | nil => rfl
  | cons x xs ih =>
    by_cases h : p x <;> simp [List.filter_cons, h, ← ih] <;> omega

theorem sum_map_div_mul (l : List ℚ) (c : ℚ) :
    (l.map fun x => x / c * 100).sum = l.sum / c * 100 := by
  induction l with
  | nil => simp
  | cons x xs ih =>
    simp only [List.map_cons, List.sum_cons, ih]
    ring

/-! ## Rank lemmas: pandas `rank(method='average')` versus dense ranking -/

theorem avgRankDesc_perm {l l' : List ℚ} (h : List.Perm l l') (v : ℚ) :
    avgRankDesc l v = avgRankDesc l' v := by
  unfold avgRankDesc
  rw [(h.filter _).length_eq, (h.filter _).length_eq]

theorem avgRankDesc_eq_of_nodup {l : List ℚ} (hnd : l.Nodup) {v : ℚ} (hv : v ∈ l) :
    avgRankDesc l v = ((l.filter fun w => decide (v < w)).length : ℚ) + 1 := by
  have hcount : (l.filter fun w => w == v).length = 1 := by
    rw [← List.countP_eq_length_filter]
    exact List.count_eq_one_of_mem hnd hv
  unfold avgRankDesc
  rw [hcount]
  norm_num

theorem exists_max_mem {l : List ℚ} (h : l ≠ []) : ∃ m ∈ l, ∀ x ∈ l, x ≤ m := by
  induction l with
  | nil => exact absurd rfl h
  | cons x xs ih =>
    cases xs with
    | nil => exact ⟨x, List.mem_singleton_self x, by simp⟩
    | cons y ys =>
      obtain ⟨m, hm, hle⟩ := ih (by simp)
      rcases le_total x m with hxm | hmx
      · exact ⟨m, List.mem_cons_of_mem x hm, by
          intro z hz
          rcases List.mem_cons.mp hz with rfl | hz
          · exact hxm
          · exact hle z hz⟩
      · exact ⟨x, List.mem_cons_self x _, by
          intro z hz
          rcases List.mem_cons.mp hz with rfl | hz
          · exact le_refl z
          · exact (hle z hz).trans hmx⟩

/-- In a duplicate-free list of rationals, every count `k` below the length is
realized as the number of elements strictly greater than some member: the
"greater-than counts" hit every slot, so dense ranks have no gaps there. -/
theorem exists_gtCount_eq (k : ℕ) (l : List ℚ) (hnd : l.Nodup) (hk : k < l.length) :
    ∃ v ∈ l, (l.filter fun w => decide (v < w)).length = k := by
  induction k generalizing l with
  | zero =>
    have hne : l ≠ [] := by
      intro hnil
      rw [hnil] at hk
      exact Nat.not_lt_zero 0 hk
    obtain ⟨m, hm, hle⟩ := exists_max_mem hne
    refine ⟨m, hm, ?_⟩
    rw [List.length_eq_zero, List.filter_eq_nil_iff]
    intro w hw
    simpa using not_lt_of_le (hle w hw)
  | succ k ih =>
    have hne : l ≠ [] := by
      intro hnil
      rw [hnil] at hk
      exact Nat.not_lt_zero _ hk
    obtain ⟨m, hm, hle⟩ := exists_max_mem hne
    have hperm : List.Perm l (m :: l.erase m) := List.perm_cons_erase hm
    have hnd' : (l.erase m).Nodup := hnd.erase m
    have hlen : (l.erase m).length = l.length - 1 := List.length_erase_of_mem hm
    have hk' : k < (l.erase m).length := by omega
    obtain ⟨v, hv, hcnt⟩ := ih (l.erase m) hnd' hk'
    have hvl : v ∈ l := List.mem_of_mem_erase hv
    have hvm : v ≠ m := (hnd.mem_erase_iff.mp hv).1
    have hvlt : v < m := lt_of_le_of_ne (hle v hvl) hvm
    refine ⟨v, hvl, ?_⟩
    rw [(hperm.filter _).length_eq]
    simp [List.filter_cons, hvlt, hcnt]

/-- Shared shape of the two `rank(ascending=False)` columns: over any table
`M` whose `rank` column is the average-method rank of its `val` column,
ties get equal ranks; and when the values are duplicate-free the column is
exactly the dense ranking (1 + the number of strictly greater values, with
every rank `1..length` hit). -/
theorem rank_column_spec {α : Type} (M : List α) (val rank : α → ℚ) (vals : List ℚ)
    (hvals : List.Perm vals (M.map val))
    (hrank : ∀ r ∈ M, rank r = avgRankDesc vals (val r)) :
    (∀ r1 ∈ M, ∀ r2 ∈ M, val r1 = val r2 → rank r1 = rank r2) ∧
    ((M.map val).Nodup →
      (∀ r ∈ M, rank r = (((M.map val).filter fun w => decide (val r < w)).length : ℚ) + 1) ∧
      (∀ k : ℕ, k < M.length → ∃ r ∈ M, rank r = (k : ℚ) + 1)) := by
  constructor
  · intro r1 h1 r2 h2 hvv
    rw [hrank r1 h1, hrank r2 h2, hvv]
  · intro hnd
    have hdense : ∀ r ∈ M, rank r = (((M.map val).filter fun w => decide (val r < w)).length : ℚ) + 1 := by
      intro r hr
      rw [hrank r hr, avgRankDesc_perm hvals (val r),
        avgRankDesc_eq_of_nodup hnd (List.mem_map_of_mem val hr)]
    refine ⟨hdense, ?_⟩
    intro k hk
    have hklen : k < (M.map val).length := by
      rw [List.length_map]
      exact hk
    obtain ⟨v, hv, hcnt⟩ := exists_gtCount_eq k (M.map val) hnd hklen
    obtain ⟨r, hr, rfl⟩ := List.mem_map.mp hv
    refine ⟨r, hr, ?_⟩
    rw [hdense r hr, hcnt]

/-! ## Structure lemmas for the metrics pipeline -/

theorem metricsDerivedRow_normalized_category (sales : List SalesRow) (r : MetricsRow) :
    (metricsDerivedRow sales r).normalized_category = r.normalized_category := rfl

theorem metricsDerivedRow_total_sales (sales : List SalesRow) (r : MetricsRow) :
    (metricsDerivedRow sales r).total_sales = r.total_sales := rfl

theorem metricsDerivedRow_total_revenue (sales : List SalesRow) (r : MetricsRow) :
    (metricsDerivedRow sales r).total_revenue = r.total_revenue := rfl

theorem metricsDerivedRow_revenue_share (sales : List SalesRow) (r : MetricsRow) :
    (metricsDerivedRow sales r).revenue_share =
      (if ((metricsBase sales).map (·.total_revenue)).sum = 0 then none
       else some (r.total_revenue / ((metricsBase sales).map (·.total_revenue)).sum * 100)) := rfl

theorem metricsDerivedRow_revenue_rank (sales : List SalesRow) (r : MetricsRow) :
    (metricsDerivedRow sales r).revenue_rank =
      avgRankDesc ((metricsBase sales).map (·.total_revenue)) r.total_revenue := rfl

theorem mem_metricsFromSales {sales : List SalesRow} {r : MetricsRow} :
    r ∈ metricsFromSales sales ↔ ∃ b ∈ metricsBase sales, r = metricsDerivedRow sales b := by
  unfold metricsFromSales
  rw [mem_sortedBy, List.mem_map]
  constructor
  · rintro ⟨b, hb, rfl⟩
    exact ⟨b, hb, rfl⟩
  · rintro ⟨b, hb, rfl⟩
    exact ⟨b, hb, rfl⟩

theorem mem_metricsBase {sales : List SalesRow} {b : MetricsRow} :
    b ∈ metricsBase sales ↔ ∃ c ∈ categoryKeys sales, b = metricsBaseRow sales c := by
  unfold metricsBase
  rw [List.mem_map]
  constructor
  · rintro ⟨c, hc, rfl⟩
    exact ⟨c, hc, rfl⟩
  · rintro ⟨c, hc, rfl⟩
    exact ⟨c, hc, rfl⟩

theorem mem_categoryKeys {sales : List SalesRow} {c : String} :
    c ∈ categoryKeys sales ↔ ∃ r ∈ sales, r.category = some c := by
  unfold categoryKeys
  rw [mem_sortedBy, mem_dedupFirst]
  simp [List.mem_filterMap]

theorem metricsFromSales_map_total_revenue (sales : List SalesRow) :
    List.Perm ((metricsFromSales sales).map (·.total_revenue))
      ((metricsBase sales).map (·.total_revenue)) := by
  unfold metricsFromSales
  have h := (sortedBy_perm (fun a b => decide (b.total_revenue ≤ a.total_revenue))
    ((metricsBase sales).map (metricsDerivedRow sales))).map (fun r : MetricsRow => r.total_revenue)
  rw [List.map_map] at h
  exact h

theorem metricsFromSales_length (sales : List SalesRow) :
    (metricsFromSales sales).length = (metricsBase sales).length := by
  unfold metricsFromSales
  rw [(sortedBy_perm _ _).length_eq, List.length_map]

/-! ## Structure lemmas for the ticket-analysis view -/

theorem ticketRowOf_avg_ticket (metrics : List MetricsRow) (r : MetricsRow) :
    (ticketRowOf metrics r).avg_ticket = r.avg_ticket := rfl

theorem ticketRowOf_ticket_rank (metrics : List MetricsRow) (r : MetricsRow) :
    (ticketRowOf metrics r).ticket_rank =
      avgRankDesc (metrics.map (·.avg_ticket)) r.avg_ticket := rfl

theorem mem_analyze_average_ticket {items : List ItemRow} {products : List ProductRow}
    {r : TicketRow} :
    r ∈ analyze_average_ticket items products ↔
      ∃ b ∈ calculate_category_metrics items products,
        r = ticketRowOf (calculate_category_metrics items products) b := by
  unfold analyze_average_ticket
  rw [mem_sortedBy, List.mem_map]
  constructor
  · rintro ⟨b, hb, rfl⟩
    exact ⟨b, hb, rfl⟩
  · rintro ⟨b, hb, rfl⟩
    exact ⟨b, hb, rfl⟩

theorem analyze_average_ticket_map_avg_ticket (items : List ItemRow) (products : List ProductRow) :
    List.Perm ((analyze_average_ticket items products).map (·.avg_ticket))
      ((calculate_category_metrics items products).map (·.avg_ticket)) := by
  unfold analyze_average_ticket
  have h := (sortedBy_perm (fun a b => decide (b.avg_ticket ≤ a.avg_ticket))
    ((calculate_category_metrics items products).map
      (ticketRowOf (calculate_category_metrics items products)))).map
    (fun r : TicketRow => r.avg_ticket)
  rw [List.map_map] at h
  exact h

theorem analyze_average_ticket_length (items : List ItemRow) (products : List ProductRow) :
    (analyze_average_ticket items products).length =
      (calculate_category_metrics items products).length := by
  unfold analyze_average_ticket
  rw [(sortedBy_perm _ _).length_eq, List.length_map]

theorem calculate_category_metrics_revenue_rank {items : List ItemRow}
    {products : List ProductRow} {r : MetricsRow}
    (hr : r ∈ calculate_category_metrics items products) :
    r.revenue_rank = avgRankDesc
      ((metricsBase (leftMergeCategory items products)).map (·.total_revenue)) r.total_revenue := by
  obtain ⟨b, hb, rfl⟩ := mem_metricsFromSales.mp hr
  rw [metricsDerivedRow_revenue_rank, metricsDerivedRow_total_revenue]

theorem analyze_average_ticket_ticket_rank {items : List ItemRow}
    {products : List ProductRow} {r : TicketRow}
    (hr : r ∈ analyze_average_ticket items products) :
    r.ticket_rank = avgRankDesc
      ((calculate_category_metrics items products).map (·.avg_ticket)) r.avg_ticket := by
  obtain ⟨b, hb, rfl⟩ := mem_analyze_average_ticket.mp hr
  rw [ticketRowOf_ticket_rank, ticketRowOf_avg_ticket]

/-! ## Field lemmas for aggregated rows, and lookup helpers -/

theorem metricsBaseRow_normalized_category (sales : List SalesRow) (c : String) :
    (metricsBaseRow sales c).normalized_category = c := rfl

theorem metricsBaseRow_total_sales (sales : List SalesRow) (c : String) :
    (metricsBaseRow sales c).total_sales = (categoryGroup sales c).length := rfl

theorem get_normalized_category_of_no_match {mapping : List MappingRow} {raw : Option String}
    (h : ∀ row ∈ mapping, cellEq row.original_portuguese_category raw = false) :
    get_normalized_category mapping raw = "Unknown" := by
  unfold get_normalized_category
  have hnone : mapping.find? (fun row => cellEq row.original_portuguese_category raw) = none := by
    rw [List.find?_eq_none]
    intro row hrow
    simp [h row hrow]
  rw [hnone]

theorem get_normalized_category_spec (mapping : List MappingRow) (raw : Option String) :
    get_normalized_category mapping raw = "Unknown" ∨
    ∃ row ∈ mapping, cellEq row.original_portuguese_category raw = true ∧
      get_normalized_category mapping raw = row.normalized_category := by
  unfold get_normalized_category
  cases h : mapping.find? (fun row => cellEq row.original_portuguese_category raw) with
  | none => exact Or.inl rfl
  | some row =>
    refine Or.inr ⟨row, List.mem_of_find?_eq_some h, ?_, rfl⟩
    exact List.find?_some (p := fun row : MappingRow => cellEq row.original_portuguese_category raw) h

/-! ## Left-join versus groupby-dropna interaction -/

theorem leftMergeCategory_filter_matched (items : List ItemRow) (products : List ProductRow) :
    leftMergeCategory (items.filter fun it => products.any fun p => p.product_id == it.product_id)
        products
      = (leftMergeCategory items products).filter (fun r => r.category.isSome) := by
  induction items with
  | nil => rfl
  | cons it rest ih =>
    by_cases h : products.any fun p => p.product_id == it.product_id
    · rw [List.filter_cons, if_pos h]
      have hne : products.filter (fun p => p.product_id == it.product_id) ≠ [] := by
        intro hnil
        obtain ⟨p, hp, hpe⟩ := List.any_eq_true.mp h
        exact List.filter_eq_nil_iff.mp hnil p hp hpe
      cases hf : products.filter (fun p => p.product_id == it.product_id) with
      | nil => exact absurd hf hne
      | cons q qs =>
        unfold leftMergeCategory
        rw [List.flatMap_cons, List.flatMap_cons, hf, List.filter_append]
        unfold leftMergeCategory at ih
        rw [ih]
        congr 1
        exact (List.filter_eq_self.mpr (by
          intro a ha
          obtain ⟨p, hp, rfl⟩ := List.mem_map.mp ha
          rfl)).symm
    · rw [List.filter_cons, if_neg h]
      have hnil : products.filter (fun p => p.product_id == it.product_id) = [] := by
        rw [List.filter_eq_nil_iff]
        intro p hp hpe
        exact h (List.any_eq_true.mpr ⟨p, hp, hpe⟩)
      unfold leftMergeCategory
      rw [List.flatMap_cons, hnil, List.filter_append]
      unfold leftMergeCategory at ih
      rw [ih]
      simp [List.filter_cons]

theorem metricsFromSales_filter_isSome (sales : List SalesRow) :
    metricsFromSales (sales.filter fun r => r.category.isSome) = metricsFromSales sales := by
  have hgroup : ∀ c, categoryGroup (sales.filter fun r => r.category.isSome) c
      = categoryGroup sales c := by
    intro c
    unfold categoryGroup
    rw [List.filter_filter]
    refine List.filter_congr fun r _ => ?_
    cases hr : r.category with
    | none => simp [hr]
    | some d => simp [hr]
  have hkeys : categoryKeys (sales.filter fun r => r.category.isSome) = categoryKeys sales := by
    unfold categoryKeys
    rw [← filterMap_eq_filterMap_filter]
  have hbaserow : ∀ c, metricsBaseRow (sales.filter fun r => r.category.isSome) c
      = metricsBaseRow sales c := by
    intro c
    unfold metricsBaseRow
    rw [hgroup c]
  have hbase : metricsBase (sales.filter fun r => r.category.isSome) = metricsBase sales := by
    unfold metricsBase
    rw [hkeys]
    exact List.map_congr_left fun c _ => hbaserow c
  have hderived : metricsDerivedRow (sales.filter fun r => r.category.isSome)
      = metricsDerivedRow sales := by
    funext r
    unfold metricsDerivedRow
    rw [hbase]
  unfold metricsFromSales
  rw [hbase, hderived]

/-! ## Field lemmas for the delivery aggregation -/

theorem deliveryMetricsRowOf_normalized_category (j : List DeliveryJoinedRow) (c : String) :
    (deliveryMetricsRowOf j c).normalized_category = c := rfl

theorem deliveryMetricsRowOf_mean (j : List DeliveryJoinedRow) (c : String) :
    (deliveryMetricsRowOf j c).delivery_time_mean =
      meanQ ((j.filter (fun r => r.normalized_category == c)).filterMap (·.delivery_time)) := rfl

theorem deliveryMetricsRowOf_var (j : List DeliveryJoinedRow) (c : String) :
    (deliveryMetricsRowOf j c).delivery_time_var =
      sampleVarQ ((j.filter (fun r => r.normalized_category == c)).filterMap (·.delivery_time)) := rfl

theorem deliveryMetricsRowOf_min (j : List DeliveryJoinedRow) (c : String) :
    (deliveryMetricsRowOf j c).delivery_time_min =
      minQ ((j.filter (fun r => r.normalized_category == c)).filterMap (·.delivery_time)) := rfl

theorem deliveryMetricsRowOf_max (j : List DeliveryJoinedRow) (c : String) :
    (deliveryMetricsRowOf j c).delivery_time_max =
      maxQ ((j.filter (fun r => r.normalized_category == c)).filterMap (·.delivery_time)) := rfl

theorem deliveryMetricsRowOf_order_count (j : List DeliveryJoinedRow) (c : String) :
    (deliveryMetricsRowOf j c).order_count =
      (j.filter (fun r => r.normalized_category == c)).length := rfl

/-! ## Shared helper facts about the built mapping -/

theorem create_initial_mapping_normalized (categories : List CategoryRow) :
    ∀ row ∈ create_initial_mapping categories,
      row.normalized_category = normalizeLabel row.english_translation := by
  intro row hrow
  have hm : row ∈ categories.map fun r =>
      ({ original_portuguese_category := r.product_category_name
         english_translation := r.product_category_name_english
         normalized_category := normalizeLabel r.product_category_name_english } : MappingRow) :=
    (mem_dedupFirst.mp hrow).1
  obtain ⟨r, hr, rfl⟩ := List.mem_map.mp hm
  rfl

/-! ## Claim theorems -/

/-- C7 counterexample: the claim says `build` deduplicates by `raw_label`,
keeping only the first occurrence of each raw label.  On the translation
table `[("a","x"), ("a","y")]` the code's full-row `drop_duplicates()` keeps
both rows, so the built mapping contains two entries with the same raw label
`"a"` — the pairwise-distinct-raw-labels property fails. -/
theorem duplicate_raw_label_counterexample :
    create_initial_mapping [⟨some "a", some "x"⟩, ⟨some "a", some "y"⟩]
      = [⟨some "a", some "x", "X"⟩, ⟨some "a", some "y", "Y"⟩] ∧
    ¬ List.Pairwise (fun r1 r2 : MappingRow =>
        r1.original_portuguese_category ≠ r2.original_portuguese_category)
      (create_initial_mapping [⟨some "a", some "x"⟩, ⟨some "a", some "y"⟩]) := by
  constructor
  · decide
  · decide

/-- C7 (amended): `create_initial_mapping` deduplicates complete rows, not
raw labels: the built mapping never contains two entries that agree on both
`original_portuguese_category` and `english_translation` (the first
occurrence of a fully identical row is the one kept), but two entries with
the same raw label and different translations may both survive. -/
theorem mapping_rows_pairwise_distinct (categories : List CategoryRow) :
    List.Pairwise (fun r1 r2 : MappingRow =>
      ¬(r1.original_portuguese_category = r2.original_portuguese_category ∧
        r1.english_translation = r2.english_translation))
      (create_initial_mapping categories) := by
  have hnd : (create_initial_mapping categories).Nodup := nodup_dedupFirst _ _
  refine hnd.imp_of_mem ?_
  intro r1 r2 h1 h2 hne
  rintro ⟨ho, he⟩
  apply hne
  have hn1 := create_initial_mapping_normalized categories r1 h1
  have hn2 := create_initial_mapping_normalized categories r2 h2
  cases r1
  cases r2
  simp only at ho he hn1 hn2 ⊢
  subst ho
  subst he
  rw [hn1, hn2]

/-- Witness for the C7 theorem at a concrete translation table. -/
theorem mapping_rows_pairwise_distinct_witness :
    List.Pairwise (fun r1 r2 : MappingRow =>
      ¬(r1.original_portuguese_category = r2.original_portuguese_category ∧
        r1.english_translation = r2.english_translation))
      (create_initial_mapping [⟨some "a", some "x"⟩, ⟨some "a", some "y"⟩]) :=
  mapping_rows_pairwise_distinct [⟨some "a", some "x"⟩, ⟨some "a", some "y"⟩]

/-- C8: `get_normalized_category` is a total function of the mapping and the
raw label (it cannot raise once a mapping is present): a label matching no
entry yields the sentinel `"Unknown"`, and in general the result is either
`"Unknown"` or the `normalized_category` of a mapping entry whose raw label
matches the query. -/
theorem lookup_total_unknown_on_miss (mapping : List MappingRow) (raw : Option String) :
    ((∀ row ∈ mapping, cellEq row.original_portuguese_category raw = false) →
      get_normalized_category mapping raw = "Unknown") ∧
    (get_normalized_category mapping raw = "Unknown" ∨
      ∃ row ∈ mapping, cellEq row.original_portuguese_category raw = true ∧
        get_normalized_category mapping raw = row.normalized_category) :=
  ⟨fun h => get_normalized_category_of_no_match h, get_normalized_category_spec mapping raw⟩

/-- Witness for the C8 theorem: a concrete one-entry mapping and an absent
raw label, for which the lookup returns `"Unknown"`. -/
theorem lookup_total_unknown_on_miss_witness :
    (∀ row ∈ [(⟨some "beleza_saude", some "health beauty", "Health_Beauty"⟩ : MappingRow)],
      cellEq row.original_portuguese_category (some "absent") = false) ∧
    get_normalized_category [⟨some "beleza_saude", some "health beauty", "Health_Beauty"⟩]
      (some "absent") = "Unknown" :=
  ⟨by decide, (lookup_total_unknown_on_miss
    [⟨some "beleza_saude", some "health beauty", "Health_Beauty"⟩]
    (some "absent")).1 (by decide)⟩

/-- C9: every row of the mapping built by `create_initial_mapping` carries
the canonical label prescribed by the spec's rule: the title-cased,
space-to-underscore form of its translated label, and exactly `"Unknown"`
when the translated label is null. -/
theorem canonical_label_matches_spec_rule (categories : List CategoryRow) :
    ∀ row ∈ create_initial_mapping categories,
      row.normalized_category = specCanonicalLabel row.english_translation := by
  intro row hrow
  rw [create_initial_mapping_normalized categories row hrow]
  cases row.english_translation <;> rfl

/-- Witness for the C9 theorem: a table with one translated and one null
label; the built rows carry `"Health_Beauty"` and `"Unknown"` respectively. -/
theorem canonical_label_matches_spec_rule_witness :
    ((⟨some "beleza_saude", some "health beauty", "Health_Beauty"⟩ : MappingRow)
      ∈ create_initial_mapping [⟨some "beleza_saude", some "health beauty"⟩, ⟨some "x", none⟩]) ∧
    ((⟨some "x", none, "Unknown"⟩ : MappingRow)
      ∈ create_initial_mapping [⟨some "beleza_saude", some "health beauty"⟩, ⟨some "x", none⟩]) ∧
    (⟨some "beleza_saude", some "health beauty", "Health_Beauty"⟩ : MappingRow).normalized_category
      = specCanonicalLabel (some "health beauty") ∧
    (⟨some "x", none, "Unknown"⟩ : MappingRow).normalized_category = specCanonicalLabel none := by
  have h1 : (⟨some "beleza_saude", some "health beauty", "Health_Beauty"⟩ : MappingRow)
      ∈ create_initial_mapping [⟨some "beleza_saude", some "health beauty"⟩, ⟨some "x", none⟩] := by
    decide
  have h2 : (⟨some "x", none, "Unknown"⟩ : MappingRow)
      ∈ create_initial_mapping [⟨some "beleza_saude", some "health beauty"⟩, ⟨some "x", none⟩] := by
    decide
  exact ⟨h1, h2, canonical_label_matches_spec_rule _ _ h1,
    canonical_label_matches_spec_rule _ _ h2⟩

/-- C10: persisting the built mapping and loading it back yields a mapping
whose lookup agrees with the built mapping on every raw label (in
particular on every raw label present at build time). -/
theorem build_save_load_roundtrip (categories : List CategoryRow) (raw : Option String) :
    get_normalized_category (load_mapping (save_mapping (create_initial_mapping categories))) raw
      = get_normalized_category (create_initial_mapping categories) raw := by
  have h : ∀ m : List MappingRow, load_mapping (save_mapping m) = m := by
    intro m
    unfold save_mapping load_mapping
    rw [List.map_map]
    exact List.map_id m
  rw [h]

/-- C1 counterexample: the claim says an order item whose `product_id` has no
product row still appears in the joined data with canonical category
`"Unknown"` and is counted under `"Unknown"` in the metrics.  In the code the
left merge gives such an item a null category (not `"Unknown"`), and
`groupby` drops the null key, so the metrics table is empty: the item is
counted under no category at all. -/
theorem missing_product_item_dropped_counterexample :
    leftMergeCategory [⟨1, "o1", "ghost", 10⟩] [] = [⟨1, "o1", "ghost", 10, none⟩] ∧
    calculate_category_metrics [⟨1, "o1", "ghost", 10⟩] [] = [] := by
  constructor <;>
    norm_num +decide [calculate_category_metrics, metricsFromSales, metricsBase, metricsBaseRow,
      metricsDerivedRow, categoryGroup, categoryKeys, leftMergeCategory, sortedBy, insertSorted,
      dedupFirst, avgRankDesc, List.filter_cons, List.filterMap_cons]

/-- C1 (amended): the two "unknown category" situations behave differently.
An item whose `product_id` is absent from the products table survives the
left merge with a null category but contributes to no `CategoryMetrics` row
(the metrics are unchanged if such items are removed).  An item whose product
row exists with `normalized_category = "Unknown"` — which is what
`prepare_product_categories` assigns when the raw label has no mapping entry
— is counted in the `"Unknown"` group. -/
theorem missing_product_vs_unmapped_label (items : List ItemRow) (products : List ProductRow) :
    (calculate_category_metrics items products =
      calculate_category_metrics
        (items.filter fun it => products.any fun p => p.product_id == it.product_id) products) ∧
    (∀ it ∈ items, (∀ p ∈ products, p.product_id ≠ it.product_id) →
      ({ order_item_id := it.order_item_id, order_id := it.order_id,
         product_id := it.product_id, price := it.price, category := none } : SalesRow)
        ∈ leftMergeCategory items products) ∧
    (∀ it ∈ items, ∀ p ∈ products, p.product_id = it.product_id →
      p.normalized_category = "Unknown" →
      ∃ row ∈ calculate_category_metrics items products,
        row.normalized_category = "Unknown" ∧ 0 < row.total_sales) ∧
    (∀ (mapping : List MappingRow) (rawProducts : List RawProductRow), ∀ q ∈ rawProducts,
      (∀ mrow ∈ mapping,
        cellEq mrow.original_portuguese_category q.product_category_name = false) →
      ({ product_id := q.product_id, normalized_category := "Unknown" } : ProductRow)
        ∈ prepare_product_categories mapping rawProducts) := by
  refine ⟨?_, ?_, ?_, ?_⟩
  · unfold calculate_category_metrics
    rw [leftMergeCategory_filter_matched, metricsFromSales_filter_isSome]
  · intro it hit hnp
    have hnil : products.filter (fun p => p.product_id == it.product_id) = [] := by
      rw [List.filter_eq_nil_iff]
      intro p hp hpe
      exact hnp p hp (by simpa using hpe)
    unfold leftMergeCategory
    refine List.mem_flatMap.mpr ⟨it, hit, ?_⟩
    rw [hnil]
    exact List.mem_singleton_self _
  · intro it hit p hp hpid hcat
    have hpf : p ∈ products.filter (fun q => q.product_id == it.product_id) :=
      List.mem_filter.mpr ⟨hp, by simp [hpid]⟩
    have hrow : (SalesRow.mk it.order_item_id it.order_id it.product_id it.price
        (some "Unknown")) ∈ leftMergeCategory items products := by
      unfold leftMergeCategory
      refine List.mem_flatMap.mpr ⟨it, hit, ?_⟩
      cases hf : products.filter (fun q => q.product_id == it.product_id) with
      | nil =>
        rw [hf] at hpf
        cases hpf
      | cons q qs =>
        rw [hf] at hpf
        refine List.mem_map.mpr ⟨p, hpf, ?_⟩
        rw [hcat]
    have hmem : (SalesRow.mk it.order_item_id it.order_id it.product_id it.price
        (some "Unknown")) ∈ categoryGroup (leftMergeCategory items products) "Unknown" :=
      List.mem_filter.mpr ⟨hrow, by simp⟩
    have hkey : "Unknown" ∈ categoryKeys (leftMergeCategory items products) :=
      mem_categoryKeys.mpr ⟨_, hrow, rfl⟩
    refine ⟨metricsDerivedRow (leftMergeCategory items products)
      (metricsBaseRow (leftMergeCategory items products) "Unknown"),
      mem_metricsFromSales.mpr ⟨_, mem_metricsBase.mpr ⟨_, hkey, rfl⟩, rfl⟩, ?_, ?_⟩
    · rw [metricsDerivedRow_normalized_category, metricsBaseRow_normalized_category]
    · rw [metricsDerivedRow_total_sales, metricsBaseRow_total_sales]
      exact List.length_pos_of_mem hmem
  · intro mapping rawProducts q hq hnomatch
    refine List.mem_map.mpr ⟨q, hq, ?_⟩
    rw [get_normalized_category_of_no_match hnomatch]

/-- Witness for the C1 theorem: one matched item in category `"Unknown"`,
one item whose product is missing, and one unmapped raw product label. -/
theorem missing_product_vs_unmapped_label_witness :
    (calculate_category_metrics [⟨1, "o1", "A", 10⟩, ⟨2, "o2", "ghost", 20⟩] [⟨"A", "Unknown"⟩] =
      calculate_category_metrics
        (([⟨1, "o1", "A", 10⟩, ⟨2, "o2", "ghost", 20⟩] : List ItemRow).filter
          fun it => ([⟨"A", "Unknown"⟩] : List ProductRow).any
            fun p => p.product_id == it.product_id) [⟨"A", "Unknown"⟩]) ∧
    ((⟨2, "o2", "ghost", 20, none⟩ : SalesRow)
      ∈ leftMergeCategory [⟨1, "o1", "A", 10⟩, ⟨2, "o2", "ghost", 20⟩] [⟨"A", "Unknown"⟩]) ∧
    (∃ row ∈ calculate_category_metrics [⟨1, "o1", "A", 10⟩, ⟨2, "o2", "ghost", 20⟩]
        [⟨"A", "Unknown"⟩], row.normalized_category = "Unknown" ∧ 0 < row.total_sales) ∧
    ((⟨"A", "Unknown"⟩ : ProductRow)
      ∈ prepare_product_categories [] [⟨"A", some "livros"⟩]) := by
  refine ⟨(missing_product_vs_unmapped_label _ _).1, ?_, ?_, ?_⟩
  · exact (missing_product_vs_unmapped_label
      [⟨1, "o1", "A", 10⟩, ⟨2, "o2", "ghost", 20⟩] [⟨"A", "Unknown"⟩]).2.1
      ⟨2, "o2", "ghost", 20⟩ (by simp) (by decide)
  · exact (missing_product_vs_unmapped_label
      [⟨1, "o1", "A", 10⟩, ⟨2, "o2", "ghost", 20⟩] [⟨"A", "Unknown"⟩]).2.2.1
      ⟨1, "o1", "A", 10⟩ (by simp) ⟨"A", "Unknown"⟩ (by simp) rfl rfl
  · exact (missing_product_vs_unmapped_label
      [⟨1, "o1", "A", 10⟩, ⟨2, "o2", "ghost", 20⟩] [⟨"A", "Unknown"⟩]).2.2.2
      [] [⟨"A", some "livros"⟩] ⟨"A", some "livros"⟩ (by simp) (by simp)

/-- C2 counterexample: the claim says `revenue_rank` is a dense ranking, so
the largest revenue gets rank 1.  With two categories of equal revenue the
code's `rank(ascending=False)` (pandas default `method='average'`) assigns
both the rank 3/2: no row has rank 1, so rank 1 is skipped and the column is
not a dense ranking. -/
theorem revenue_rank_not_dense_counterexample :
    ((calculate_category_metrics [⟨1, "o1", "A", 10⟩, ⟨1, "o2", "B", 10⟩]
        [⟨"A", "CatA"⟩, ⟨"B", "CatB"⟩]).map (·.revenue_rank)) = [3/2, 3/2] ∧
    ∀ r ∈ calculate_category_metrics [⟨1, "o1", "A", 10⟩, ⟨1, "o2", "B", 10⟩]
        [⟨"A", "CatA"⟩, ⟨"B", "CatB"⟩], r.revenue_rank ≠ 1 := by
  constructor <;>
    norm_num +decide [calculate_category_metrics, metricsFromSales, metricsBase, metricsBaseRow,
      metricsDerivedRow, categoryGroup, categoryKeys, leftMergeCategory, sortedBy, insertSorted,
      dedupFirst, avgRankDesc, List.filter_cons, List.filterMap_cons]

set_option maxHeartbeats 1000000 in
/-- C2 (amended): `revenue_rank` and `ticket_rank` are the average-method
ranks of the descending value columns, not dense ranks.  Ties do receive
equal ranks; and whenever the ranked values are pairwise distinct the column
coincides with the dense ranking — each row's rank is one plus the number of
strictly greater values, and every rank `1..n` is hit — but with ties the
tied rows receive the mean of the positions they occupy, so rank values can
be skipped. -/
theorem rank_columns_average_method (items : List ItemRow) (products : List ProductRow) :
    (∀ r1 ∈ calculate_category_metrics items products,
     ∀ r2 ∈ calculate_category_metrics items products,
      r1.total_revenue = r2.total_revenue → r1.revenue_rank = r2.revenue_rank) ∧
    (((calculate_category_metrics items products).map (·.total_revenue)).Nodup →
      (∀ r ∈ calculate_category_metrics items products,
        r.revenue_rank = ((((calculate_category_metrics items products).map
          (·.total_revenue)).filter fun w => decide (r.total_revenue < w)).length : ℚ) + 1) ∧
      (∀ k : ℕ, k < (calculate_category_metrics items products).length →
        ∃ r ∈ calculate_category_metrics items products, r.revenue_rank = (k : ℚ) + 1)) ∧
    (∀ r1 ∈ analyze_average_ticket items products,
     ∀ r2 ∈ analyze_average_ticket items products,
      r1.avg_ticket = r2.avg_ticket → r1.ticket_rank = r2.ticket_rank) ∧
    (((analyze_average_ticket items products).map (·.avg_ticket)).Nodup →
      (∀ r ∈ analyze_average_ticket items products,
        r.ticket_rank = ((((analyze_average_ticket items products).map
          (·.avg_ticket)).filter fun w => decide (r.avg_ticket < w)).length : ℚ) + 1) ∧
      (∀ k : ℕ, k < (analyze_average_ticket items products).length →
        ∃ r ∈ analyze_average_ticket items products, r.ticket_rank = (k : ℚ) + 1)) := by
  have hrev := rank_column_spec (calculate_category_metrics items products)
    (fun r => r.total_revenue) (fun r => r.revenue_rank)
    ((metricsBase (leftMergeCategory items products)).map (·.total_revenue))
    (metricsFromSales_map_total_revenue (leftMergeCategory items products)).symm
    (fun r hr => calculate_category_metrics_revenue_rank hr)
  have htick := rank_column_spec (analyze_average_ticket items products)
    (fun r => r.avg_ticket) (fun r => r.ticket_rank)
    ((calculate_category_metrics items products).map (·.avg_ticket))
    (analyze_average_ticket_map_avg_ticket items products).symm
    (fun r hr => analyze_average_ticket_ticket_rank hr)
  exact ⟨hrev.1, hrev.2, htick.1, htick.2⟩

/-- Witness for the C2 theorem at an input with pairwise distinct revenues
and average tickets. -/
theorem rank_columns_average_method_witness :
    (((calculate_category_metrics [⟨1, "o1", "A", 10⟩, ⟨1, "o2", "B", 30⟩]
        [⟨"A", "CatA"⟩, ⟨"B", "CatB"⟩]).map (·.total_revenue)).Nodup) ∧
    (((analyze_average_ticket [⟨1, "o1", "A", 10⟩, ⟨1, "o2", "B", 30⟩]
        [⟨"A", "CatA"⟩, ⟨"B", "CatB"⟩]).map (·.avg_ticket)).Nodup) ∧
    ((∀ r ∈ calculate_category_metrics [⟨1, "o1", "A", 10⟩, ⟨1, "o2", "B", 30⟩]
        [⟨"A", "CatA"⟩, ⟨"B", "CatB"⟩],
        r.revenue_rank = ((((calculate_category_metrics [⟨1, "o1", "A", 10⟩, ⟨1, "o2", "B", 30⟩]
          [⟨"A", "CatA"⟩, ⟨"B", "CatB"⟩]).map
          (·.total_revenue)).filter fun w => decide (r.total_revenue < w)).length : ℚ) + 1) ∧
      (∀ k : ℕ, k < (calculate_category_metrics [⟨1, "o1", "A", 10⟩, ⟨1, "o2", "B", 30⟩]
          [⟨"A", "CatA"⟩, ⟨"B", "CatB"⟩]).length →
        ∃ r ∈ calculate_category_metrics [⟨1, "o1", "A", 10⟩, ⟨1, "o2", "B", 30⟩]
          [⟨"A", "CatA"⟩, ⟨"B", "CatB"⟩], r.revenue_rank = (k : ℚ) + 1)) ∧
    ((∀ r ∈ analyze_average_ticket [⟨1, "o1", "A", 10⟩, ⟨1, "o2", "B", 30⟩]
        [⟨"A", "CatA"⟩, ⟨"B", "CatB"⟩],
        r.ticket_rank = ((((analyze_average_ticket [⟨1, "o1", "A", 10⟩, ⟨1, "o2", "B", 30⟩]
          [⟨"A", "CatA"⟩, ⟨"B", "CatB"⟩]).map
          (·.avg_ticket)).filter fun w => decide (r.avg_ticket < w)).length : ℚ) + 1) ∧
      (∀ k : ℕ, k < (analyze_average_ticket [⟨1, "o1", "A", 10⟩, ⟨1, "o2", "B", 30⟩]
          [⟨"A", "CatA"⟩, ⟨"B", "CatB"⟩]).length →
        ∃ r ∈ analyze_average_ticket [⟨1, "o1", "A", 10⟩, ⟨1, "o2", "B", 30⟩]
          [⟨"A", "CatA"⟩, ⟨"B", "CatB"⟩], r.ticket_rank = (k : ℚ) + 1)) := by
  have h1 : ((calculate_category_metrics [⟨1, "o1", "A", 10⟩, ⟨1, "o2", "B", 30⟩]
      [⟨"A", "CatA"⟩, ⟨"B", "CatB"⟩]).map (·.total_revenue)).Nodup := by
    norm_num +decide [calculate_category_metrics, metricsFromSales, metricsBase, metricsBaseRow,
      metricsDerivedRow, categoryGroup, categoryKeys, leftMergeCategory, sortedBy, insertSorted,
      dedupFirst, avgRankDesc, List.filter_cons, List.filterMap_cons]
  have h2 : ((analyze_average_ticket [⟨1, "o1", "A", 10⟩, ⟨1, "o2", "B", 30⟩]
      [⟨"A", "CatA"⟩, ⟨"B", "CatB"⟩]).map (·.avg_ticket)).Nodup := by
    norm_num +decide [analyze_average_ticket, ticketRowOf, meanQ, calculate_category_metrics,
      metricsFromSales, metricsBase, metricsBaseRow, metricsDerivedRow, categoryGroup,
      categoryKeys, leftMergeCategory, sortedBy, insertSorted, dedupFirst, avgRankDesc,
      List.filter_cons, List.filterMap_cons]
  exact ⟨h1, h2,
    (rank_columns_average_method [⟨1, "o1", "A", 10⟩, ⟨1, "o2", "B", 30⟩]
      [⟨"A", "CatA"⟩, ⟨"B", "CatB"⟩]).2.1 h1,
    (rank_columns_average_method [⟨1, "o1", "A", 10⟩, ⟨1, "o2", "B", 30⟩]
      [⟨"A", "CatA"⟩, ⟨"B", "CatB"⟩]).2.2.2 h2⟩

/-- C3: on an input whose total revenue across all categories is zero (a
single zero-priced item), `calculate_category_metrics` does not abort: it
returns a normal table whose `revenue_share` is the non-finite float `NaN`
(modelled as `none`), and `analyze_category_popularity` then propagates that
`NaN` into `popularity_score`.  This documents the divergence between the
code and the spec's mandated fatal precondition violation. -/
theorem zero_revenue_emits_nan_not_abort :
    calculate_category_metrics [⟨1, "o1", "A", 0⟩] [⟨"A", "Toys"⟩]
      = [⟨"Toys", 1, 0, 0, 1, none, 1⟩] ∧
    analyze_category_popularity [⟨1, "o1", "A", 0⟩] [⟨"A", "Toys"⟩]
      = [⟨"Toys", 1, none, 1, some 1, none⟩] := by
  constructor <;>
    norm_num +decide [calculate_category_metrics, metricsFromSales, metricsBase, metricsBaseRow,
      metricsDerivedRow, categoryGroup, categoryKeys, leftMergeCategory, sortedBy, insertSorted,
      dedupFirst, avgRankDesc, analyze_category_popularity, maxNat?, List.filter_cons,
      List.filterMap_cons]

/-- C4: whenever the total revenue over the `CategoryMetrics` table is
nonzero (the spec's precondition "total revenue across all categories" is
not zero), every `revenue_share` cell is a finite value and the column sums
to exactly 100. -/
theorem revenue_share_sums_to_100 (items : List ItemRow) (products : List ProductRow)
    (h : ((calculate_category_metrics items products).map (·.total_revenue)).sum ≠ 0) :
    ((calculate_category_metrics items products).map (fun r => r.revenue_share.getD 0)).sum = 100 ∧
    ∀ r ∈ calculate_category_metrics items products, r.revenue_share.isSome := by
  have hrev : ((calculate_category_metrics items products).map (·.total_revenue)).sum
      = ((metricsBase (leftMergeCategory items products)).map (·.total_revenue)).sum :=
    (metricsFromSales_map_total_revenue (leftMergeCategory items products)).sum_eq
  have hS : ((metricsBase (leftMergeCategory items products)).map (·.total_revenue)).sum ≠ 0 := by
    rw [← hrev]; exact h
  constructor
  · have hperm := ((sortedBy_perm (fun a b => decide (b.total_revenue ≤ a.total_revenue))
      ((metricsBase (leftMergeCategory items products)).map
        (metricsDerivedRow (leftMergeCategory items products)))).map
      (fun r : MetricsRow => r.revenue_share.getD 0)).sum_eq
    calc ((calculate_category_metrics items products).map (fun r => r.revenue_share.getD 0)).sum
        = (((metricsBase (leftMergeCategory items products)).map
            (metricsDerivedRow (leftMergeCategory items products))).map
            (fun r => r.revenue_share.getD 0)).sum := hperm
      _ = ((metricsBase (leftMergeCategory items products)).map
            (fun b => b.total_revenue /
              ((metricsBase (leftMergeCategory items products)).map (·.total_revenue)).sum * 100)).sum := by
          rw [List.map_map]
          congr 1
          refine List.map_congr_left fun b hb => ?_
          simp [Function.comp, metricsDerivedRow_revenue_share, hS]
      _ = 100 := by
          have hs := sum_map_div_mul
            ((metricsBase (leftMergeCategory items products)).map (·.total_revenue))
            ((metricsBase (leftMergeCategory items products)).map (·.total_revenue)).sum
          rw [List.map_map] at hs
          exact hs.trans (by rw [div_self hS, one_mul])
  · intro r hr
    obtain ⟨b, hb, rfl⟩ := mem_metricsFromSales.mp hr
    rw [metricsDerivedRow_revenue_share]
    simp [hS]

/-- Witness for the C4 theorem at the spec's own example: two items priced
10 and 30 in one category. -/
theorem revenue_share_sums_to_100_witness :
    ((calculate_category_metrics [⟨1, "o1", "A", 10⟩, ⟨2, "o1", "B", 30⟩]
        [⟨"A", "Toys"⟩, ⟨"B", "Toys"⟩]).map (·.total_revenue)).sum ≠ 0 ∧
    ((calculate_category_metrics [⟨1, "o1", "A", 10⟩, ⟨2, "o1", "B", 30⟩]
        [⟨"A", "Toys"⟩, ⟨"B", "Toys"⟩]).map (fun r => r.revenue_share.getD 0)).sum = 100 :=
  ⟨by norm_num +decide [calculate_category_metrics, metricsFromSales, metricsBase, metricsBaseRow,
      metricsDerivedRow, categoryGroup, categoryKeys, leftMergeCategory, sortedBy, insertSorted,
      dedupFirst, avgRankDesc, List.filter_cons, List.filterMap_cons],
   (revenue_share_sums_to_100 [⟨1, "o1", "A", 10⟩, ⟨2, "o1", "B", 30⟩]
      [⟨"A", "Toys"⟩, ⟨"B", "Toys"⟩]
      (by norm_num +decide [calculate_category_metrics, metricsFromSales, metricsBase,
        metricsBaseRow, metricsDerivedRow, categoryGroup, categoryKeys, leftMergeCategory,
        sortedBy, insertSorted, dedupFirst, avgRankDesc, List.filter_cons,
        List.filterMap_cons])).1⟩

/-- C5: `OlistAnalyzer.__init__` stores exactly the attributes `products_df`,
`items_df` and `output_dir` and never a `datasets` attribute, so
`analyze_sales_by_month`, `analyze_delivery_metrics`, and therefore
`generate_detailed_excel_report` (which calls `analyze_sales_by_month` as its
second sheet), always fail with `AttributeError('datasets')` instead of
returning a table. -/
theorem datasets_attribute_never_defined (products : List ProductRow) (items : List ItemRow)
    (out : String) :
    ((olistAnalyzerInit products items out).attrs.map Prod.fst
      = ["products_df", "items_df", "output_dir"]) ∧
    ((olistAnalyzerInit products items out).attrs.find? (fun kv => kv.1 == "datasets") = none) ∧
    ((olistAnalyzerInit products items out).getattr "datasets"
      = Except.error (PyError.attributeError "datasets")) ∧
    ((olistAnalyzerInit products items out).analyze_sales_by_month
      = Except.error (PyError.attributeError "datasets")) ∧
    ((olistAnalyzerInit products items out).analyze_delivery_metrics
      = Except.error (PyError.attributeError "datasets")) ∧
    ((olistAnalyzerInit products items out).generate_detailed_excel_report
      = Except.error (PyError.attributeError "datasets")) :=
  ⟨rfl, rfl, rfl, rfl, rfl, rfl⟩

/-- C6 counterexample: the claim says undelivered orders contribute to none
of the per-category delivery aggregates, including the order count.  With
one delivered and one undelivered order in the same category, the code's
`('order_id', 'count')` aggregate is 2, not the count 1 of rows with a
non-null delivery timestamp: the undelivered order is excluded from
mean/std/min/max but still counted. -/
theorem delivery_count_includes_undelivered_counterexample :
    analyze_delivery_metrics_core
        [⟨"o1", some ⟨0, 2017, 1⟩, some ⟨86400, 2017, 1⟩⟩, ⟨"o2", some ⟨0, 2017, 1⟩, none⟩]
        [⟨1, "o1", "A", 10⟩, ⟨1, "o2", "A", 20⟩] [⟨"A", "Toys"⟩]
      = [⟨"Toys", some 1, none, some 1, some 1, 2⟩] ∧
    ¬ (∀ row ∈ analyze_delivery_metrics_core
        [⟨"o1", some ⟨0, 2017, 1⟩, some ⟨86400, 2017, 1⟩⟩, ⟨"o2", some ⟨0, 2017, 1⟩, none⟩]
        [⟨1, "o1", "A", 10⟩, ⟨1, "o2", "A", 20⟩] [⟨"A", "Toys"⟩],
        row.order_count = (((deliveryJoined
            [⟨"o1", some ⟨0, 2017, 1⟩, some ⟨86400, 2017, 1⟩⟩, ⟨"o2", some ⟨0, 2017, 1⟩, none⟩]
            [⟨1, "o1", "A", 10⟩, ⟨1, "o2", "A", 20⟩] [⟨"A", "Toys"⟩]).filter
          (fun r => r.normalized_category == row.normalized_category)).filter
          (fun r => r.delivery_time.isSome)).length) := by
  constructor
  · norm_num +decide [analyze_delivery_metrics_core, deliveryMetricsRowOf, deliveryJoined,
      itemsInnerProducts, deliveryTime, sortedBy, insertSorted, dedupFirst, meanQ, sampleVarQ,
      minQ, maxQ, List.filter_cons, List.filterMap_cons]
  · intro hall
    have h2 := hall ⟨"Toys", some 1, none, some 1, some 1, 2⟩ (by
      norm_num +decide [analyze_delivery_metrics_core, deliveryMetricsRowOf, deliveryJoined,
        itemsInnerProducts, deliveryTime, sortedBy, insertSorted, dedupFirst, meanQ, sampleVarQ,
        minQ, maxQ, List.filter_cons, List.filterMap_cons])
    norm_num +decide [deliveryJoined, itemsInnerProducts, deliveryTime,
      List.filter_cons, List.filterMap_cons] at h2

/-- C6 (amended): in every row of the delivery-metrics view, the mean,
variance (whose square root is the reported standard deviation), min and max
of `delivery_time` are computed only from the rows of the category group
whose delivery timestamp is present, while the `('order_id', 'count')`
aggregate counts every row of the group — delivered and undelivered alike. -/
theorem delivery_aggregates_spec (orders : List OrderRow) (items : List ItemRow)
    (products : List ProductRow) :
    ∀ row ∈ analyze_delivery_metrics_core orders items products,
      row.delivery_time_mean = meanQ ((((deliveryJoined orders items products).filter
          (fun r => r.normalized_category == row.normalized_category)).filter
          (fun r => r.delivery_time.isSome)).filterMap (·.delivery_time)) ∧
      row.delivery_time_var = sampleVarQ ((((deliveryJoined orders items products).filter
          (fun r => r.normalized_category == row.normalized_category)).filter
          (fun r => r.delivery_time.isSome)).filterMap (·.delivery_time)) ∧
      row.delivery_time_min = minQ ((((deliveryJoined orders items products).filter
          (fun r => r.normalized_category == row.normalized_category)).filter
          (fun r => r.delivery_time.isSome)).filterMap (·.delivery_time)) ∧
      row.delivery_time_max = maxQ ((((deliveryJoined orders items products).filter
          (fun r => r.normalized_category == row.normalized_category)).filter
          (fun r => r.delivery_time.isSome)).filterMap (·.delivery_time)) ∧
      row.order_count = (((deliveryJoined orders items products).filter
          (fun r => r.normalized_category == row.normalized_category)).filter
          (fun r => r.delivery_time.isSome)).length +
        (((deliveryJoined orders items products).filter
          (fun r => r.normalized_category == row.normalized_category)).filter
          (fun r => !(r.delivery_time.isSome))).length := by
  intro row hrow
  unfold analyze_delivery_metrics_core at hrow
  rw [List.mem_map] at hrow
  obtain ⟨c, hc, rfl⟩ := hrow
  have hxs : ((deliveryJoined orders items products).filter
      (fun r => r.normalized_category == c)).filterMap (·.delivery_time)
      = (((deliveryJoined orders items products).filter
          (fun r => r.normalized_category == c)).filter
          (fun r => r.delivery_time.isSome)).filterMap (·.delivery_time) :=
    filterMap_eq_filterMap_filter _ _
  simp only [deliveryMetricsRowOf_normalized_category, deliveryMetricsRowOf_mean,
    deliveryMetricsRowOf_var, deliveryMetricsRowOf_min, deliveryMetricsRowOf_max,
    deliveryMetricsRowOf_order_count]
  refine ⟨by rw [hxs], by rw [hxs], by rw [hxs], by rw [hxs], ?_⟩
  rw [length_filter_add_length_filter_not]

/-- Witness for the C6 theorem at a concrete input with one delivered and
one undelivered order in the `"Toys"` category. -/
theorem delivery_aggregates_spec_witness :
    ((⟨"Toys", some 1, none, some 1, some 1, 2⟩ : DeliveryMetricsRow)
      ∈ analyze_delivery_metrics_core
        [⟨"o1", some ⟨0, 2017, 1⟩, some ⟨86400, 2017, 1⟩⟩, ⟨"o2", some ⟨0, 2017, 1⟩, none⟩]
        [⟨1, "o1", "A", 10⟩, ⟨1, "o2", "A", 20⟩] [⟨"A", "Toys"⟩]) ∧
    ((⟨"Toys", some 1, none, some 1, some 1, 2⟩ : DeliveryMetricsRow).delivery_time_mean
        = meanQ ((((deliveryJoined
            [⟨"o1", some ⟨0, 2017, 1⟩, some ⟨86400, 2017, 1⟩⟩, ⟨"o2", some ⟨0, 2017, 1⟩, none⟩]
            [⟨1, "o1", "A", 10⟩, ⟨1, "o2", "A", 20⟩] [⟨"A", "Toys"⟩]).filter
          (fun r => r.normalized_category ==
            (⟨"Toys", some 1, none, some 1, some 1, 2⟩ : DeliveryMetricsRow).normalized_category)).filter
          (fun r => r.delivery_time.isSome)).filterMap (·.delivery_time)) ∧
      (⟨"Toys", some 1, none, some 1, some 1, 2⟩ : DeliveryMetricsRow).delivery_time_var
        = sampleVarQ ((((deliveryJoined
            [⟨"o1", some ⟨0, 2017, 1⟩, some ⟨86400, 2017, 1⟩⟩, ⟨"o2", some ⟨0, 2017, 1⟩, none⟩]
            [⟨1, "o1", "A", 10⟩, ⟨1, "o2", "A", 20⟩] [⟨"A", "Toys"⟩]).filter
          (fun r => r.normalized_category ==
            (⟨"Toys", some 1, none, some 1, some 1, 2⟩ : DeliveryMetricsRow).normalized_category)).filter
          (fun r => r.delivery_time.isSome)).filterMap (·.delivery_time)) ∧
      (⟨"Toys", some 1, none, some 1, some 1, 2⟩ : DeliveryMetricsRow).delivery_time_min
        = minQ ((((deliveryJoined
            [⟨"o1", some ⟨0, 2017, 1⟩, some ⟨86400, 2017, 1⟩⟩, ⟨"o2", some ⟨0, 2017, 1⟩, none⟩]
            [⟨1, "o1", "A", 10⟩, ⟨1, "o2", "A", 20⟩] [⟨"A", "Toys"⟩]).filter
          (fun r => r.normalized_category ==
            (⟨"Toys", some 1, none, some 1, some 1, 2⟩ : DeliveryMetricsRow).normalized_category)).filter
          (fun r => r.delivery_time.isSome)).filterMap (·.delivery_time)) ∧
      (⟨"Toys", some 1, none, some 1, some 1, 2⟩ : DeliveryMetricsRow).delivery_time_max
        = maxQ ((((deliveryJoined
            [⟨"o1", some ⟨0, 2017, 1⟩, some ⟨86400, 2017, 1⟩⟩, ⟨"o2", some ⟨0, 2017, 1⟩, none⟩]
            [⟨1, "o1", "A", 10⟩, ⟨1, "o2", "A", 20⟩] [⟨"A", "Toys"⟩]).filter
          (fun r => r.normalized_category ==
            (⟨"Toys", some 1, none, some 1, some 1, 2⟩ : DeliveryMetricsRow).normalized_category)).filter
          (fun r => r.delivery_time.isSome)).filterMap (·.delivery_time)) ∧
      (⟨"Toys", some 1, none, some 1, some 1, 2⟩ : DeliveryMetricsRow).order_count
        = (((deliveryJoined
            [⟨"o1", some ⟨0, 2017, 1⟩, some ⟨86400, 2017, 1⟩⟩, ⟨"o2", some ⟨0, 2017, 1⟩, none⟩]
            [⟨1, "o1", "A", 10⟩, ⟨1, "o2", "A", 20⟩] [⟨"A", "Toys"⟩]).filter
          (fun r => r.normalized_category ==
            (⟨"Toys", some 1, none, some 1, some 1, 2⟩ : DeliveryMetricsRow).normalized_category)).filter
          (fun r => r.delivery_time.isSome)).length +
        (((deliveryJoined
            [⟨"o1", some ⟨0, 2017, 1⟩, some ⟨86400, 2017, 1⟩⟩, ⟨"o2", some ⟨0, 2017, 1⟩, none⟩]
            [⟨1, "o1", "A", 10⟩, ⟨1, "o2", "A", 20⟩] [⟨"A", "Toys"⟩]).filter
          (fun r => r.normalized_category ==
            (⟨"Toys", some 1, none, some 1, some 1, 2⟩ : DeliveryMetricsRow).normalized_category)).filter
          (fun r => !(r.delivery_time.isSome))).length) := by
  have hmem : (⟨"Toys", some 1, none, some 1, some 1, 2⟩ : DeliveryMetricsRow)
      ∈ analyze_delivery_metrics_core
        [⟨"o1", some ⟨0, 2017, 1⟩, some ⟨86400, 2017, 1⟩⟩, ⟨"o2", some ⟨0, 2017, 1⟩, none⟩]
        [⟨1, "o1", "A", 10⟩, ⟨1, "o2", "A", 20⟩] [⟨"A", "Toys"⟩] := by
    norm_num +decide [analyze_delivery_metrics_core, deliveryMetricsRowOf, deliveryJoined,
      itemsInnerProducts, deliveryTime, sortedBy, insertSorted, dedupFirst, meanQ, sampleVarQ,
      minQ, maxQ, List.filter_cons, List.filterMap_cons]
  exact ⟨hmem, delivery_aggregates_spec _ _ _ _ hmem⟩
